import Mathlib

/-!
Verification of the CRX fetch-and-convert tool (`src/index.js`).

A CRX container buffer is modelled as a `List Nat` of bytes.  The three
core operations embedded here are:

* `getZipStartOffset` — the header parser: validates the magic tag the way
  `buffer.toString("ascii", 0, 4)` does in Node (the high bit of every byte
  is cleared before decoding), reads the little-endian version field and the
  version-specific length fields with bounds-checked `readUInt32LE`, and
  returns the offset where the embedded ZIP data starts.
* `fetchWithRedirect` — the redirect-following fetcher, modelled against an
  abstract server `String → HttpResponse`; it additionally returns the trace
  of requests (URL and headers of every hop) that the real code issues.
* `convertCRXtoZIP` — the CRX→ZIP conversion over an explicit filesystem
  state `String → Option (List Nat)`.
-/

/-- Errors thrown by the header parser: bad magic ("Not a valid CRX file"),
unsupported version (carrying the observed value), and Node's
`ERR_OUT_OF_RANGE` from a `readUInt32LE` past the end of the buffer. -/
inductive CRXErr where
  | formatError : CRXErr
  | unsupportedVersion : Nat → CRXErr
  | outOfRange : CRXErr
deriving DecidableEq

/-- Node's `Buffer.prototype.readUInt32LE(off)`: bounds-checked little-endian
32-bit read.  Buffer cells hold bytes, so each cell is reduced mod 256. -/
def readUInt32LE (b : List Nat) (off : Nat) : Except CRXErr Nat :=
  if off + 4 ≤ b.length then
    Except.ok (b.getD off 0 % 256 + 256 * (b.getD (off + 1) 0 % 256) +
      65536 * (b.getD (off + 2) 0 % 256) + 16777216 * (b.getD (off + 3) 0 % 256))
  else Except.error CRXErr.outOfRange

/-- The byte values of the ASCII magic tag "Cr24". -/
def asciiMagic : List Nat := [67, 114, 50, 52]

/-- `buffer.toString("ascii", 0, 4) === "Cr24"`: Node's "ascii" decoding
clears the high bit of each byte before decoding it as latin1, so the
comparison sees each of the first four bytes mod 128. -/
def magicOk (b : List Nat) : Bool :=
  (b.take 4).map (fun x => x % 128) == asciiMagic

/-- `getZipStartOffset` from `src/index.js`: checks the magic, reads the
version at offset 4, and returns `16 + pubKeyLen + sigLen` for version 2,
`12 + headerSize` for version 3; any other version is an error. -/
def getZipStartOffset (b : List Nat) : Except CRXErr Nat :=
  if magicOk b then
    match readUInt32LE b 4 with
    | Except.error e => Except.error e
    | Except.ok version =>
      if version = 2 then
        match readUInt32LE b 8 with
        | Except.error e => Except.error e
        | Except.ok pubKeyLen =>
          match readUInt32LE b 12 with
          | Except.error e => Except.error e
          | Except.ok sigLen => Except.ok (16 + pubKeyLen + sigLen)
      else if version = 3 then
        match readUInt32LE b 8 with
        | Except.error e => Except.error e
        | Except.ok headerSize => Except.ok (12 + headerSize)
      else Except.error (CRXErr.unsupportedVersion version)
  else Except.error CRXErr.formatError

/-- Little-endian 32-bit encoding of a number, used to build the synthetic
buffers of the round-trip properties. -/
def le32 (n : Nat) : List Nat :=
  [n % 256, n / 256 % 256, n / 65536 % 256, n / 16777216 % 256]

/-- A synthetic V2 container: "Cr24" + LE32(2) + LE32(p) + LE32(s) +
public key bytes + signature bytes + ZIP payload. -/
def mkV2 (p s : Nat) (pub sig payload : List Nat) : List Nat :=
  asciiMagic ++ le32 2 ++ le32 p ++ le32 s ++ pub ++ sig ++ payload

/-- A synthetic V3 container: "Cr24" + LE32(3) + LE32(hsz) + header bytes +
ZIP payload. -/
def mkV3 (hsz : Nat) (hdr payload : List Nat) : List Nat :=
  asciiMagic ++ le32 3 ++ le32 hsz ++ hdr ++ payload

/-- An HTTP response as seen by the `https.get` callback: status code and
headers (Node lowercases header names, so the location header has key
"location"); the body is a byte stream, modelled as the list of its bytes. -/
structure HttpResponse where
  statusCode : Nat
  headers : List (String × String)
  body : List Nat

/-- `headers.location`: the value of the "location" header, if present. -/
def locationOf (headers : List (String × String)) : Option String :=
  Option.map Prod.snd (headers.find? (fun p => p.1 == "location"))

/-- Truthiness of `headers.location` in JS: present and not the empty
string. -/
def locationTruthy (headers : List (String × String)) : Bool :=
  match locationOf headers with
  | some l => l != ""
  | none => false

/-- The redirect condition of `fetchWithRedirect`:
`statusCode >= 300 && statusCode < 400 && headers.location`. -/
def isRedirect (r : HttpResponse) : Bool :=
  decide (300 ≤ r.statusCode) && decide (r.statusCode < 400) &&
    locationTruthy r.headers

/-- What `fetchWithRedirect` resolves with: the final response's status
code, headers and body stream. -/
structure FetchResult where
  statusCode : Nat
  headers : List (String × String)
  bodyStream : List Nat

/-- The fetcher's failure: "Too many redirects". -/
inductive FetchError where
  | tooManyRedirects : FetchError
deriving DecidableEq

/-- `fetchWithRedirect(url, options, maxRedirects)` from `src/index.js`,
run against an abstract server mapping URLs to responses.  Besides the
result it returns the trace of requests issued: each hop's URL together
with the `options` headers passed to `https.get` at that hop.  On a
redirect with exhausted budget it rejects; otherwise it follows the
location header with the same `options` and `maxRedirects - 1`. -/
def fetchWithRedirect (server : String → HttpResponse) :
    String → List (String × String) → Nat →
    List (String × List (String × String)) × Except FetchError FetchResult
  | url, options, 0 =>
    let res := server url
    if isRedirect res then
      ([(url, options)], Except.error FetchError.tooManyRedirects)
    else ([(url, options)], Except.ok ⟨res.statusCode, res.headers, res.body⟩)
  | url, options, Nat.succ n =>
    let res := server url
    if isRedirect res then
      let rest :=
        fetchWithRedirect server ((locationOf res.headers).getD "") options n
      ((url, options) :: rest.1, rest.2)
    else ([(url, options)], Except.ok ⟨res.statusCode, res.headers, res.body⟩)

/-- A filesystem state: each path maps to the bytes of the file stored
there, if any. -/
def FS : Type := String → Option (List Nat)

/-- Errors of the conversion step: the CRX file could not be read, or the
header parser threw. -/
inductive ConvertErr where
  | readError : ConvertErr
  | headerError : CRXErr → ConvertErr

/-- `fs.writeFileSync`: store bytes at a path, overwriting. -/
def fsWrite (fs : FS) (p : String) (data : List Nat) : FS :=
  fun q => if q = p then some data else fs q

/-- `convertCRXtoZIP(crxPath, zipPath)` from `src/index.js`: read the CRX
file, compute the ZIP start offset, and write the slice from that offset to
the end of the buffer to the ZIP path.  Returns the new filesystem state
together with the outcome; on any thrown error the filesystem is returned
unchanged, since the write happens after the parser call. -/
def convertCRXtoZIP (fs : FS) (crxPath zipPath : String) :
    FS × Except ConvertErr Unit :=
  match fs crxPath with
  | none => (fs, Except.error ConvertErr.readError)
  | some buffer =>
    match getZipStartOffset buffer with
    | Except.error e => (fs, Except.error (ConvertErr.headerError e))
    | Except.ok zipOffset =>
      (fsWrite fs zipPath (buffer.drop zipOffset), Except.ok ())

/-! ## Helper lemmas -/

theorem readUInt32LE_eq (b : List Nat) (off n : Nat) (h : off + 4 ≤ b.length)
    (h0 : b.getD off 0 % 256 + 256 * (b.getD (off + 1) 0 % 256) +
      65536 * (b.getD (off + 2) 0 % 256) +
      16777216 * (b.getD (off + 3) 0 % 256) = n) :
    readUInt32LE b off = Except.ok n := by
  rw [readUInt32LE, if_pos h, h0]

theorem length_mkV2 (p s : Nat) (pub sig payload : List Nat) :
    (mkV2 p s pub sig payload).length =
      16 + pub.length + sig.length + payload.length := by
  simp [mkV2, asciiMagic, le32]
  omega

theorem length_mkV3 (hsz : Nat) (hdr payload : List Nat) :
    (mkV3 hsz hdr payload).length = 12 + hdr.length + payload.length := by
  simp [mkV3, asciiMagic, le32]
  omega

theorem magicOk_mkV2 (p s : Nat) (pub sig payload : List Nat) :
    magicOk (mkV2 p s pub sig payload) = true := rfl

theorem magicOk_mkV3 (hsz : Nat) (hdr payload : List Nat) :
    magicOk (mkV3 hsz hdr payload) = true := rfl

theorem readUInt32LE_mkV2_4 (p s : Nat) (pub sig payload : List Nat) :
    readUInt32LE (mkV2 p s pub sig payload) 4 = Except.ok 2 :=
  readUInt32LE_eq _ 4 2 (by rw [length_mkV2]; omega) rfl

theorem readUInt32LE_mkV2_8 (p s : Nat) (pub sig payload : List Nat)
    (hp : p < 4294967296) :
    readUInt32LE (mkV2 p s pub sig payload) 8 = Except.ok p := by
  apply readUInt32LE_eq
  · rw [length_mkV2]; omega
  · show p % 256 % 256 + 256 * (p / 256 % 256 % 256) +
      65536 * (p / 65536 % 256 % 256) +
      16777216 * (p / 16777216 % 256 % 256) = p
    omega

theorem readUInt32LE_mkV2_12 (p s : Nat) (pub sig payload : List Nat)
    (hs : s < 4294967296) :
    readUInt32LE (mkV2 p s pub sig payload) 12 = Except.ok s := by
  apply readUInt32LE_eq
  · rw [length_mkV2]; omega
  · show s % 256 % 256 + 256 * (s / 256 % 256 % 256) +
      65536 * (s / 65536 % 256 % 256) +
      16777216 * (s / 16777216 % 256 % 256) = s
    omega

theorem readUInt32LE_mkV3_4 (hsz : Nat) (hdr payload : List Nat) :
    readUInt32LE (mkV3 hsz hdr payload) 4 = Except.ok 3 :=
  readUInt32LE_eq _ 4 3 (by rw [length_mkV3]; omega) rfl

theorem readUInt32LE_mkV3_8 (hsz : Nat) (hdr payload : List Nat)
    (hh : hsz < 4294967296) :
    readUInt32LE (mkV3 hsz hdr payload) 8 = Except.ok hsz := by
  apply readUInt32LE_eq
  · rw [length_mkV3]; omega
  · show hsz % 256 % 256 + 256 * (hsz / 256 % 256 % 256) +
      65536 * (hsz / 65536 % 256 % 256) +
      16777216 * (hsz / 16777216 % 256 % 256) = hsz
    omega

/-- Claim C2: for every buffer built as "Cr24" + LE32(2) + LE32(pubLen) +
LE32(sigLen) + pubKeyBytes + sigBytes + payload with pubKeyBytes of length
pubLen and sigBytes of length sigLen, `getZipStartOffset` returns exactly
`16 + pubLen + sigLen`, and slicing the buffer from that offset to its end
reproduces the payload bit-for-bit. -/
theorem v2_offset_and_roundtrip (p s : Nat) (pub sig payload : List Nat)
    (hpub : pub.length = p) (hsig : sig.length = s)
    (hp : p < 4294967296) (hs : s < 4294967296) :
    getZipStartOffset (mkV2 p s pub sig payload) = Except.ok (16 + p + s) ∧
    (mkV2 p s pub sig payload).drop (16 + p + s) = payload := by
  constructor
  · simp [getZipStartOffset, magicOk_mkV2, readUInt32LE_mkV2_4,
      readUInt32LE_mkV2_8 p s pub sig payload hp,
      readUInt32LE_mkV2_12 p s pub sig payload hs]
  · show ((asciiMagic ++ le32 2 ++ le32 p ++ le32 s ++ pub ++ sig) ++
      payload).drop (16 + p + s) = payload
    refine List.drop_left' ?_
    simp [asciiMagic, le32, hpub, hsig]
    omega

/-- Witness for C2 at a concrete V2 buffer: pubLen 1, sigLen 2,
payload `[5, 6]`. -/
theorem v2_offset_and_roundtrip_witness :
    getZipStartOffset (mkV2 1 2 [9] [7, 8] [5, 6]) = Except.ok 19 ∧
    (mkV2 1 2 [9] [7, 8] [5, 6]).drop 19 = [5, 6] :=
  v2_offset_and_roundtrip 1 2 [9] [7, 8] [5, 6] rfl rfl (by norm_num)
    (by norm_num)

/-- Claim C3: for every buffer built as "Cr24" + LE32(3) + LE32(headerSize)
+ headerBytes + payload with headerBytes of length headerSize,
`getZipStartOffset` returns exactly `12 + headerSize`, and slicing the
buffer from that offset to its end reproduces the payload bit-for-bit. -/
theorem v3_offset_and_roundtrip (hsz : Nat) (hdr payload : List Nat)
    (hhdr : hdr.length = hsz) (hh : hsz < 4294967296) :
    getZipStartOffset (mkV3 hsz hdr payload) = Except.ok (12 + hsz) ∧
    (mkV3 hsz hdr payload).drop (12 + hsz) = payload := by
  constructor
  · simp [getZipStartOffset, magicOk_mkV3, readUInt32LE_mkV3_4,
      readUInt32LE_mkV3_8 hsz hdr payload hh]
  · show ((asciiMagic ++ le32 3 ++ le32 hsz ++ hdr) ++ payload).drop
      (12 + hsz) = payload
    refine List.drop_left' ?_
    simp [asciiMagic, le32, hhdr]
    omega

/-- Witness for C3 at a concrete V3 buffer: headerSize 3, payload
`[1, 2]`. -/
theorem v3_offset_and_roundtrip_witness :
    getZipStartOffset (mkV3 3 [10, 11, 12] [1, 2]) = Except.ok 15 ∧
    (mkV3 3 [10, 11, 12] [1, 2]).drop 15 = [1, 2] :=
  v3_offset_and_roundtrip 3 [10, 11, 12] [1, 2] rfl (by norm_num)

theorem magicOk_of_take (b : List Nat) (hm : b.take 4 = asciiMagic) :
    magicOk b = true := by
  unfold magicOk
  rw [hm]
  rfl

theorem readUInt32LE_error (b : List Nat) (off : Nat) (e : CRXErr)
    (h : readUInt32LE b off = Except.error e) : e = CRXErr.outOfRange := by
  unfold readUInt32LE at h
  split at h <;> simp_all

theorem readUInt32LE_ne_formatError (b : List Nat) (off : Nat) :
    readUInt32LE b off ≠ Except.error CRXErr.formatError := by
  intro h
  have := readUInt32LE_error b off CRXErr.formatError h
  exact absurd this (by decide)

/-- Claim C8: for every buffer whose first 4 bytes are "Cr24" and whose
little-endian u32 version field at offset 4 is neither 2 nor 3,
`getZipStartOffset` fails with the unsupported-version error carrying the
observed version value. -/
theorem unsupportedVersion_of_bad_version (b : List Nat) (v : Nat)
    (hm : b.take 4 = asciiMagic) (hv : readUInt32LE b 4 = Except.ok v)
    (h2 : v ≠ 2) (h3 : v ≠ 3) :
    getZipStartOffset b = Except.error (CRXErr.unsupportedVersion v) := by
  unfold getZipStartOffset
  rw [if_pos (magicOk_of_take b hm), hv]
  simp [h2, h3]

/-- Witness for C8: a concrete buffer with magic "Cr24" and version 5. -/
theorem unsupportedVersion_of_bad_version_witness :
    getZipStartOffset [67, 114, 50, 52, 5, 0, 0, 0] =
      Except.error (CRXErr.unsupportedVersion 5) :=
  unsupportedVersion_of_bad_version [67, 114, 50, 52, 5, 0, 0, 0] 5 rfl rfl
    (by norm_num) (by norm_num)

/-- Claim C9: whenever `getZipStartOffset` returns an offset, that offset is
at least 12; for a version-2 buffer it is at least 16 and for a version-3
buffer at least 12.  The length fields are unsigned, so the offset is never
below these bounds (and in particular never negative). -/
theorem offset_lower_bound (b : List Nat) (off : Nat)
    (h : getZipStartOffset b = Except.ok off) :
    12 ≤ off ∧ (readUInt32LE b 4 = Except.ok 2 → 16 ≤ off) ∧
      (readUInt32LE b 4 = Except.ok 3 → 12 ≤ off) := by
  unfold getZipStartOffset at h
  by_cases hm : magicOk b
  · rw [if_pos hm] at h
    rcases hv : readUInt32LE b 4 with e | v <;> rw [hv] at h
    · simp at h
    · by_cases h2 : v = 2
      · subst h2
        rcases h8 : readUInt32LE b 8 with e8 | pk <;> rw [h8] at h
        · simp at h
        · rcases h12 : readUInt32LE b 12 with e12 | sl <;> rw [h12] at h
          · simp at h
          · simp at h
            refine ⟨by omega, fun _ => by omega, fun _ => by omega⟩
      · by_cases h3 : v = 3
        · subst h3
          rcases h8 : readUInt32LE b 8 with e8 | hsz <;> rw [h8] at h
          · simp at h
          · simp at h
            refine ⟨by omega, fun hc => ?_, fun _ => by omega⟩
            simp at hc
        · simp [h2, h3] at h
  · rw [if_neg hm] at h
    simp at h

/-- Witness for C9 at a concrete V3 buffer with headerSize 5: the returned
offset 17 satisfies all three lower bounds. -/
theorem offset_lower_bound_witness :
    12 ≤ 17 ∧
    (readUInt32LE [67, 114, 50, 52, 3, 0, 0, 0, 5, 0, 0, 0] 4 =
      Except.ok 2 → 16 ≤ 17) ∧
    (readUInt32LE [67, 114, 50, 52, 3, 0, 0, 0, 5, 0, 0, 0] 4 =
      Except.ok 3 → 12 ≤ 17) :=
  offset_lower_bound [67, 114, 50, 52, 3, 0, 0, 0, 5, 0, 0, 0] 17 rfl

/-- Claim C10: a buffer that starts with "Cr24" but is too short for the
fixed header fields that are read (shorter than 8 bytes for the version
field, shorter than 16 bytes for a version-2 buffer's two length fields,
shorter than 12 bytes for a version-3 buffer's header-size field) makes
`getZipStartOffset` throw the out-of-range read error instead of returning
an offset. -/
theorem truncated_header_out_of_range (b : List Nat)
    (hm : b.take 4 = asciiMagic)
    (hcase : b.length < 8 ∨
      (readUInt32LE b 4 = Except.ok 2 ∧ b.length < 16) ∨
      (readUInt32LE b 4 = Except.ok 3 ∧ b.length < 12)) :
    getZipStartOffset b = Except.error CRXErr.outOfRange := by
  unfold getZipStartOffset
  rw [if_pos (magicOk_of_take b hm)]
  rcases hcase with hlen | ⟨hv, hlen⟩ | ⟨hv, hlen⟩
  · have hv : readUInt32LE b 4 = Except.error CRXErr.outOfRange := by
      unfold readUInt32LE
      rw [if_neg (by omega)]
    rw [hv]
  · rw [hv]
    rcases h8 : readUInt32LE b 8 with e8 | pk
    · have he := readUInt32LE_error b 8 e8 h8
      subst he
      simp
    · have h12 : readUInt32LE b 12 = Except.error CRXErr.outOfRange := by
        unfold readUInt32LE
        rw [if_neg (by omega)]
      rw [h12]
      simp
  · have h8 : readUInt32LE b 8 = Except.error CRXErr.outOfRange := by
      unfold readUInt32LE
      rw [if_neg (by omega)]
    rw [hv, h8]
    simp

/-- Witness for C10: a 7-byte buffer starting with "Cr24" is too short for
the version field and the parser throws the out-of-range error. -/
theorem truncated_header_out_of_range_witness :
    getZipStartOffset [67, 114, 50, 52, 2, 0, 0] =
      Except.error CRXErr.outOfRange :=
  truncated_header_out_of_range [67, 114, 50, 52, 2, 0, 0] rfl
    (Or.inl (by decide))

theorem getZipStartOffset_ne_formatError (b : List Nat)
    (hm : magicOk b = true) :
    getZipStartOffset b ≠ Except.error CRXErr.formatError := by
  unfold getZipStartOffset
  rw [if_pos hm]
  rcases hv : readUInt32LE b 4 with e | v
  · have he := readUInt32LE_error b 4 e hv
    subst he
    simp
  · by_cases h2 : v = 2
    · subst h2
      rcases h8 : readUInt32LE b 8 with e8 | pk
      · have he := readUInt32LE_error b 8 e8 h8
        subst he
        simp
      · rcases h12 : readUInt32LE b 12 with e12 | sl
        · have he := readUInt32LE_error b 12 e12 h12
          subst he
          simp
        · simp
    · by_cases h3 : v = 3
      · subst h3
        rcases h8 : readUInt32LE b 8 with e8 | hsz
        · have he := readUInt32LE_error b 8 e8 h8
          subst he
          simp
        · simp
      · simp [h2, h3]

/-- Counterexample to claim C7: the buffer starting with bytes
`[0xC3, 0x72, 0x32, 0x34]` does not begin with the ASCII magic "Cr24", yet
`getZipStartOffset` accepts it (Node's "ascii" decoding clears the high bit
of 0xC3, turning it into 'C') and returns an offset instead of failing. -/
theorem magic_highbit_counterexample :
    ([195, 114, 50, 52, 3, 0, 0, 0, 0, 0, 0, 0] : List Nat).take 4 ≠
      asciiMagic ∧
    getZipStartOffset [195, 114, 50, 52, 3, 0, 0, 0, 0, 0, 0, 0] =
      Except.ok 12 :=
  ⟨by decide, rfl⟩

/-- Claim C7 (amended): `getZipStartOffset` fails with the format error
exactly when the buffer is shorter than 4 bytes or its first 4 bytes, with
the high bit of each byte cleared (Node's "ascii" decoding), are not
"Cr24". -/
theorem formatError_iff_magic (b : List Nat) :
    getZipStartOffset b = Except.error CRXErr.formatError ↔
      (b.take 4).map (fun x => x % 128) ≠ asciiMagic := by
  constructor
  · intro h hmm
    have hm : magicOk b = true := by
      unfold magicOk
      rw [hmm]
      rfl
    exact getZipStartOffset_ne_formatError b hm h
  · intro hne
    have hm : magicOk b = false := by
      unfold magicOk
      exact beq_eq_false_iff_ne.mpr hne
    unfold getZipStartOffset
    rw [if_neg (by simp [hm])]

/-- Witness for the amended C7 at the empty buffer: it is shorter than 4
bytes, so the parser fails with the format error. -/
theorem formatError_iff_magic_witness :
    getZipStartOffset [] = Except.error CRXErr.formatError ↔
      (([] : List Nat).take 4).map (fun x => x % 128) ≠ asciiMagic :=
  formatError_iff_magic []

/-- Counterexample to claim C1: a 16-byte V2 buffer declaring a public-key
length of 100 is accepted and `getZipStartOffset` returns 116, an offset
beyond the buffer's end, instead of failing with the format error. -/
theorem bounds_unchecked_counterexample :
    getZipStartOffset [67, 114, 50, 52, 2, 0, 0, 0, 100, 0, 0, 0, 0, 0, 0, 0] =
      Except.ok 116 ∧
    ¬ 116 ≤
      ([67, 114, 50, 52, 2, 0, 0, 0, 100, 0, 0, 0, 0, 0, 0, 0] :
        List Nat).length :=
  ⟨rfl, by decide⟩

/-- Claim C1 (amended): the declared length fields are NOT checked against
the buffer's remaining size.  Whenever the magic check passes and the fixed
header fields are readable, `getZipStartOffset` returns
`16 + pubKeyLen + sigLen` (version 2) or `12 + headerSize` (version 3)
regardless of the buffer's length, so the returned offset may lie beyond
the buffer's end. -/
theorem no_bounds_check (b : List Nat) (p s hsz : Nat) :
    (magicOk b = true → readUInt32LE b 4 = Except.ok 2 →
      readUInt32LE b 8 = Except.ok p → readUInt32LE b 12 = Except.ok s →
      getZipStartOffset b = Except.ok (16 + p + s)) ∧
    (magicOk b = true → readUInt32LE b 4 = Except.ok 3 →
      readUInt32LE b 8 = Except.ok hsz →
      getZipStartOffset b = Except.ok (12 + hsz)) := by
  constructor
  · intro hm hv h8 h12
    unfold getZipStartOffset
    rw [if_pos hm, hv, h8, h12]
    simp
  · intro hm hv h8
    unfold getZipStartOffset
    rw [if_pos hm, hv, h8]
    simp

/-- Witness for the amended C1: a 16-byte V2 buffer declaring lengths 200
and 1 yields offset 217, far beyond the buffer's 16 bytes. -/
theorem no_bounds_check_witness :
    getZipStartOffset [67, 114, 50, 52, 2, 0, 0, 0, 200, 0, 0, 0, 1, 0, 0, 0] =
      Except.ok 217 :=
  (no_bounds_check [67, 114, 50, 52, 2, 0, 0, 0, 200, 0, 0, 0, 1, 0, 0, 0]
    200 1 0).1 rfl rfl rfl rfl

theorem fetch_zero_redirect (server : String → HttpResponse) (url : String)
    (options : List (String × String))
    (hir : isRedirect (server url) = true) :
    fetchWithRedirect server url options 0 =
      ([(url, options)], Except.error FetchError.tooManyRedirects) := by
  simp [fetchWithRedirect, hir]

theorem fetch_nonredirect (server : String → HttpResponse) (url : String)
    (options : List (String × String)) (n : Nat)
    (hir : isRedirect (server url) = false) :
    fetchWithRedirect server url options n =
      ([(url, options)], Except.ok
        ⟨(server url).statusCode, (server url).headers, (server url).body⟩) := by
  cases n <;> simp [fetchWithRedirect, hir]

theorem fetch_succ_redirect (server : String → HttpResponse) (url : String)
    (options : List (String × String)) (n : Nat)
    (hir : isRedirect (server url) = true) :
    fetchWithRedirect server url options (n + 1) =
      ((url, options) ::
        (fetchWithRedirect server ((locationOf (server url).headers).getD "")
          options n).1,
       (fetchWithRedirect server ((locationOf (server url).headers).getD "")
          options n).2) := by
  simp [fetchWithRedirect, hir]

theorem fetch_trace_length_le (server : String → HttpResponse)
    (options : List (String × String)) :
    ∀ n u, (fetchWithRedirect server u options n).1.length ≤ n + 1 := by
  intro n
  induction n with
  | zero =>
    intro u
    by_cases hir : isRedirect (server u) = true
    · rw [fetch_zero_redirect server u options hir]
      simp
    · have hf : isRedirect (server u) = false := by
        simp at hir
        exact hir
      rw [fetch_nonredirect server u options 0 hf]
      simp
  | succ n ih =>
    intro u
    by_cases hir : isRedirect (server u) = true
    · rw [fetch_succ_redirect server u options n hir]
      simp only [List.length_cons]
      exact Nat.succ_le_succ (ih _)
    · have hf : isRedirect (server u) = false := by
        simp at hir
        exact hir
      rw [fetch_nonredirect server u options (n + 1) hf]
      simp

theorem fetch_loop_exhausts (server : String → HttpResponse)
    (options : List (String × String))
    (h : ∀ u, isRedirect (server u) = true) :
    ∀ n u, (fetchWithRedirect server u options n).2 =
        Except.error FetchError.tooManyRedirects ∧
      (fetchWithRedirect server u options n).1.length = n + 1 := by
  intro n
  induction n with
  | zero =>
    intro u
    rw [fetch_zero_redirect server u options (h u)]
    simp
  | succ n ih =>
    intro u
    rw [fetch_succ_redirect server u options n (h u)]
    refine ⟨(ih _).1, ?_⟩
    simp only [List.length_cons, (ih _).2]

/-- Claim C4: against a server that always answers with a 3xx status and a
location header (an infinite redirect loop), `fetchWithRedirect` with the
default hop budget 5 fails with the too-many-redirects error after exactly
5 follow attempts, that is after 6 requests in total; and for every
non-negative hop budget the follow process terminates, issuing at most
budget + 1 requests. -/
theorem redirect_loop_budget (server : String → HttpResponse) (url : String)
    (options : List (String × String))
    (h : ∀ u, isRedirect (server u) = true) :
    ((fetchWithRedirect server url options 5).2 =
        Except.error FetchError.tooManyRedirects ∧
      (fetchWithRedirect server url options 5).1.length = 6) ∧
    ∀ u n, (fetchWithRedirect server u options n).1.length ≤ n + 1 := by
  refine ⟨⟨(fetch_loop_exhausts server options h 5 url).1,
    (fetch_loop_exhausts server options h 5 url).2⟩, ?_⟩
  intro u n
  exact fetch_trace_length_le server options n u

/-- A server that redirects every URL to the same location: an infinite
redirect loop. -/
def loopServer : String → HttpResponse :=
  fun _ => ⟨302, [("location", "https://loop.example/a")], []⟩

/-- Witness for C4: running the fetcher with budget 5 against the looping
server fails with the too-many-redirects error after 6 requests. -/
theorem redirect_loop_budget_witness :
    ((fetchWithRedirect loopServer "https://start.example"
        [("user-agent", "Chrome")] 5).2 =
        Except.error FetchError.tooManyRedirects ∧
      (fetchWithRedirect loopServer "https://start.example"
        [("user-agent", "Chrome")] 5).1.length = 6) ∧
    ∀ u n, (fetchWithRedirect loopServer u
      [("user-agent", "Chrome")] n).1.length ≤ n + 1 :=
  redirect_loop_budget loopServer "https://start.example"
    [("user-agent", "Chrome")] (fun _ => rfl)

/-- Claim C5: along every redirect chain, every request issued at every hop
carries exactly the original `options` headers, and when the chain ends in
a non-redirect response, that response's status code, headers and body
stream are returned to the caller as-is. -/
theorem headers_persist_and_final_returned (server : String → HttpResponse) :
    ∀ n url options,
      (∀ e ∈ (fetchWithRedirect server url options n).1, e.2 = options) ∧
      (∀ r, (fetchWithRedirect server url options n).2 = Except.ok r →
        ∃ u, isRedirect (server u) = false ∧
          r = ⟨(server u).statusCode, (server u).headers,
            (server u).body⟩) := by
  intro n
  induction n with
  | zero =>
    intro url options
    by_cases hir : isRedirect (server url) = true
    · rw [fetch_zero_redirect server url options hir]
      constructor
      · intro e he
        simp at he
        rw [he]
      · intro r hr
        simp at hr
    · have hf : isRedirect (server url) = false := by
        simp at hir
        exact hir
      rw [fetch_nonredirect server url options 0 hf]
      constructor
      · intro e he
        simp at he
        rw [he]
      · intro r hr
        simp only [] at hr
        injection hr with h9
        exact ⟨url, hf, h9.symm⟩
  | succ n ih =>
    intro url options
    by_cases hir : isRedirect (server url) = true
    · rw [fetch_succ_redirect server url options n hir]
      constructor
      · intro e he
        simp only [List.mem_cons] at he
        rcases he with he | he
        · rw [he]
        · exact (ih _ options).1 e he
      · intro r hr
        exact (ih _ options).2 r hr
    · have hf : isRedirect (server url) = false := by
        simp at hir
        exact hir
      rw [fetch_nonredirect server url options (n + 1) hf]
      constructor
      · intro e he
        simp at he
        rw [he]
      · intro r hr
        simp only [] at hr
        injection hr with h9
        exact ⟨url, hf, h9.symm⟩

/-- A mock server issuing the chain 302 → 302 → 200. -/
def mockServer : String → HttpResponse :=
  fun u =>
    if u = "https://a.example" then
      ⟨302, [("location", "https://b.example")], []⟩
    else if u = "https://b.example" then
      ⟨302, [("location", "https://c.example")], []⟩
    else ⟨200, [("content-type", "application-zip")], [80, 75, 3, 4]⟩

/-- Witness for C5 against the 302 → 302 → 200 mock server: the original
headers ride along on every hop and the final 200 response comes back
unchanged. -/
theorem headers_persist_and_final_returned_witness :
    (∀ e ∈ (fetchWithRedirect mockServer "https://a.example"
        [("user-agent", "Chrome")] 5).1, e.2 = [("user-agent", "Chrome")]) ∧
    (∀ r, (fetchWithRedirect mockServer "https://a.example"
        [("user-agent", "Chrome")] 5).2 = Except.ok r →
      ∃ u, isRedirect (mockServer u) = false ∧
        r = ⟨(mockServer u).statusCode, (mockServer u).headers,
          (mockServer u).body⟩) :=
  headers_persist_and_final_returned mockServer 5 "https://a.example"
    [("user-agent", "Chrome")]

/-- Claim C6: if the header parser fails on the bytes of the already-written
container (CRX) file, the conversion step returns the error and leaves the
filesystem unchanged: no archive (ZIP) file is written and the container
file is still in place. -/
theorem no_archive_on_parse_failure (fs : FS) (crxPath zipPath : String)
    (buffer : List Nat) (e : CRXErr)
    (hread : fs crxPath = some buffer)
    (hparse : getZipStartOffset buffer = Except.error e) :
    convertCRXtoZIP fs crxPath zipPath =
      (fs, Except.error (ConvertErr.headerError e)) ∧
    (convertCRXtoZIP fs crxPath zipPath).1 zipPath = fs zipPath ∧
    (convertCRXtoZIP fs crxPath zipPath).1 crxPath = some buffer := by
  have h1 : convertCRXtoZIP fs crxPath zipPath =
      (fs, Except.error (ConvertErr.headerError e)) := by
    unfold convertCRXtoZIP
    rw [hread]
    simp [hparse]
  refine ⟨h1, by rw [h1], by rw [h1]; exact hread⟩

/-- A filesystem holding one CRX file whose bytes fail the magic check. -/
def badCRXFs : FS :=
  fun p => if p = "ext.crx" then some [0, 1, 2, 3] else none

/-- Witness for C6: converting the bad CRX file fails with the format error
and writes nothing. -/
theorem no_archive_on_parse_failure_witness :
    convertCRXtoZIP badCRXFs "ext.crx" "ext.zip" =
      (badCRXFs, Except.error (ConvertErr.headerError CRXErr.formatError)) ∧
    (convertCRXtoZIP badCRXFs "ext.crx" "ext.zip").1 "ext.zip" =
      badCRXFs "ext.zip" ∧
    (convertCRXtoZIP badCRXFs "ext.crx" "ext.zip").1 "ext.crx" =
      some [0, 1, 2, 3] :=
  no_archive_on_parse_failure badCRXFs "ext.crx" "ext.zip" [0, 1, 2, 3]
    CRXErr.formatError rfl rfl
